import Mathlib

/-!
Verification of the CodeHub secure code-execution engine specification
against the repository sources.

The frontend sources (`src/frontend/src/types/coding.ts`,
`src/frontend/src/constants/languages.ts`,
`src/frontend/src/hooks/useCodeExecution.ts`,
`src/frontend/src/components/coding/CodingInterface.tsx`,
`src/frontend/src/components/coding/CodeExecutionPanel.tsx`) are embedded
directly.  The backend execution service itself (orchestrator, sandbox
provisioner, result aggregator) is not part of the repository sources —
only its Docker images, build scripts and design documents are — so those
parts are modelled from the specification, and each such definition is
marked `Modelled from the spec:` in its doc comment.

Numbers that are `number` (floats) in TypeScript are modelled as `ℚ`;
machine floating point plays no role in any of the proved properties.
-/

namespace CodeHub

/-- Structure `TestCase` from `src/frontend/src/types/coding.ts` (weights are floats
in the source, modelled as `ℚ`). -/
structure TestCase where
  id : String
  input : String
  expectedOutput : String
  isHidden : Bool
  weight : ℚ
deriving Repr, DecidableEq

/-- Structure `TestCaseResult` from `src/frontend/src/types/coding.ts`. -/
structure TestCaseResult where
  testCaseId : String
  passed : Bool
  actualOutput : String
  expectedOutput : String
  executionTime : ℚ
  error : Option String
deriving Repr, DecidableEq

/-- Structure `ExecutionResult` from `src/frontend/src/types/coding.ts`. -/
structure ExecutionResult where
  success : Bool
  output : String
  error : Option String
  executionTime : ℚ
  memoryUsage : ℚ
  testResults : Option (List TestCaseResult)
deriving Repr, DecidableEq

/-- Structure `LanguageConfig` from `src/frontend/src/types/coding.ts`. -/
structure LanguageConfig where
  id : String
  name : String
  monacoLanguage : String
  defaultCode : String
  fileExtension : String
deriving Repr, DecidableEq

/-- Constant `SUPPORTED_LANGUAGES` from `src/frontend/src/constants/languages.ts`:
the eight registered language configurations, default starter code
included verbatim. -/
def SUPPORTED_LANGUAGES : List LanguageConfig :=
  [ { id := "python", name := "Python", monacoLanguage := "python",
      fileExtension := "py",
      defaultCode := "def solution():\n    # Write your code here\n    pass\n\n# Test your solution\nif __name__ == \"__main__\":\n    result = solution()\n    print(result)" },
    { id := "javascript", name := "JavaScript", monacoLanguage := "javascript",
      fileExtension := "js",
      defaultCode := "function solution() \x7b\n    // Write your code here\n\x7d\n\n// Test your solution\nconsole.log(solution());" },
    { id := "typescript", name := "TypeScript", monacoLanguage := "typescript",
      fileExtension := "ts",
      defaultCode := "function solution(): any \x7b\n    // Write your code here\n\x7d\n\n// Test your solution\nconsole.log(solution());" },
    { id := "java", name := "Java", monacoLanguage := "java",
      fileExtension := "java",
      defaultCode := "public class Solution \x7b\n    public static void main(String[] args) \x7b\n        Solution sol = new Solution();\n        // Test your solution\n        System.out.println(sol.solution());\n    \x7d\n    \n    public Object solution() \x7b\n        // Write your code here\n        return null;\n    \x7d\n\x7d" },
    { id := "cpp", name := "C++", monacoLanguage := "cpp",
      fileExtension := "cpp",
      defaultCode := "#include <iostream>\n#include <vector>\n#include <string>\n\nusing namespace std;\n\nclass Solution \x7b\npublic:\n    // Write your code here\n    void solution() \x7b\n        \n    \x7d\n\x7d;\n\nint main() \x7b\n    Solution sol;\n    sol.solution();\n    return 0;\n\x7d" },
    { id := "csharp", name := "C#", monacoLanguage := "csharp",
      fileExtension := "cs",
      defaultCode := "using System;\n\npublic class Solution \n\x7b\n    public static void Main(string[] args)\n    \x7b\n        Solution sol = new Solution();\n        // Test your solution\n        Console.WriteLine(sol.SolutionMethod());\n    \x7d\n    \n    public object SolutionMethod()\n    \x7b\n        // Write your code here\n        return null;\n    \x7d\n\x7d" },
    { id := "go", name := "Go", monacoLanguage := "go",
      fileExtension := "go",
      defaultCode := "package main\n\nimport \"fmt\"\n\nfunc solution() interface\x7b\x7d \x7b\n    // Write your code here\n    return nil\n\x7d\n\nfunc main() \x7b\n    result := solution()\n    fmt.Println(result)\n\x7d" },
    { id := "rust", name := "Rust", monacoLanguage := "rust",
      fileExtension := "rs",
      defaultCode := "fn solution() -> Option<i32> \x7b\n    // Write your code here\n    None\n\x7d\n\nfn main() \x7b\n    let result = solution();\n    println!(\"\x7b:?\x7d\", result);\n\x7d" } ]

/-- Function `getLanguageConfig` from `src/frontend/src/constants/languages.ts`:
`SUPPORTED_LANGUAGES.find(lang => lang.id === languageId)`. -/
def getLanguageConfig (languageId : String) : Option LanguageConfig :=
  SUPPORTED_LANGUAGES.find? (fun lang => lang.id == languageId)

/-- Function `getDefaultCodeForLanguage` from
`src/frontend/src/constants/languages.ts`:
`config?.defaultCode || ''` (the registered default codes are all
non-empty, so `||` only fires on a missing config). -/
def getDefaultCodeForLanguage (languageId : String) : String :=
  match getLanguageConfig languageId with
  | some config => config.defaultCode
  | none => ""

/-- The `languageMap` record inside `getMonacoLanguage`
(`src/frontend/src/components/coding/MonacoCodeEditor.tsx`). -/
def monacoLanguageMap : List (String × String) :=
  [ ("python", "python"), ("javascript", "javascript"),
    ("typescript", "typescript"), ("java", "java"), ("cpp", "cpp"),
    ("csharp", "csharp"), ("go", "go"), ("rust", "rust") ]

/-- Function `getMonacoLanguage` from `MonacoCodeEditor.tsx`:
`languageMap[language] || 'plaintext'`. -/
def getMonacoLanguage (language : String) : String :=
  match monacoLanguageMap.find? (fun p => p.1 == language) with
  | some p => p.2
  | none => "plaintext"

/-- Function `getTestResultsSummary` from
`src/frontend/src/components/coding/CodeExecutionPanel.tsx`: counts the
passed results and the total. -/
def getTestResultsSummary (testResults : List TestCaseResult) : Nat × Nat :=
  ((testResults.filter (fun result => result.passed)).length, testResults.length)

/-- The component state of `useCodeExecution`
(`src/frontend/src/hooks/useCodeExecution.ts`): the three `useState`
cells. -/
structure HookState where
  isExecuting : Bool
  executionResult : Option ExecutionResult
  error : Option String
deriving Repr, DecidableEq

/-- A call to `codeExecutionService` either resolves with an
`ExecutionResult` or rejects with an error message. -/
def ServiceOutcome : Type := Except String ExecutionResult

/-- Function `executeCode` from `src/frontend/src/hooks/useCodeExecution.ts`,
with the awaited service call abstracted as its outcome.  The state
updates are threaded in source order: `setIsExecuting(true)`,
`setError(null)`, then the try/catch/finally. -/
def executeCode (service : ServiceOutcome) (s0 : HookState) :
    HookState × ExecutionResult :=
  let s1 : HookState := { s0 with isExecuting := true }
  let s2 : HookState := { s1 with error := none }
  match service with
  | Except.ok result =>
      let s3 : HookState := { s2 with executionResult := some result }
      ({ s3 with isExecuting := false }, result)
  | Except.error msg =>
      let s3 : HookState := { s2 with error := some msg }
      let errorResult : ExecutionResult :=
        { success := false, output := "", error := some msg,
          executionTime := 0, memoryUsage := 0, testResults := none }
      let s4 : HookState := { s3 with executionResult := some errorResult }
      ({ s4 with isExecuting := false }, errorResult)

/-- Function `runTests` from `src/frontend/src/hooks/useCodeExecution.ts`; its
body is identical in structure to `executeCode`, differing only in the
service endpoint called. -/
def runTests (service : ServiceOutcome) (s0 : HookState) :
    HookState × ExecutionResult :=
  let s1 : HookState := { s0 with isExecuting := true }
  let s2 : HookState := { s1 with error := none }
  match service with
  | Except.ok result =>
      let s3 : HookState := { s2 with executionResult := some result }
      ({ s3 with isExecuting := false }, result)
  | Except.error msg =>
      let s3 : HookState := { s2 with error := some msg }
      let errorResult : ExecutionResult :=
        { success := false, output := "", error := some msg,
          executionTime := 0, memoryUsage := 0, testResults := none }
      let s4 : HookState := { s3 with executionResult := some errorResult }
      ({ s4 with isExecuting := false }, errorResult)

/-- The part of the `CodingInterface` component state touched by
`handleLanguageChange` (`CodingInterface.tsx`). -/
structure InterfaceState where
  code : String
  language : String
deriving Repr, DecidableEq

/-- JavaScript's `String.prototype.trim`: strip leading and trailing
whitespace (written out over the character list so that it evaluates
inside the kernel). -/
def trimString (s : String) : String :=
  String.mk
    (((s.toList.dropWhile Char.isWhitespace).reverse.dropWhile
        Char.isWhitespace).reverse)

/-- Function `handleLanguageChange` from `CodingInterface.tsx`.  `!code.trim()`
is true exactly when the buffer is whitespace-only, and
`getDefaultCodeForLanguage(language)` reads the captured (old) language. -/
def handleLanguageChange (newLanguage : String) (s : InterfaceState) :
    InterfaceState :=
  if newLanguage ≠ s.language then
    let defaultCode := getDefaultCodeForLanguage newLanguage
    if trimString s.code = "" ∨ s.code = getDefaultCodeForLanguage s.language then
      { code := defaultCode, language := newLanguage }
    else
      { s with language := newLanguage }
  else s

/-- The `testResults` array built by `handleRunTests` in
`CodingInterface.tsx`: `question.testCases.map((testCase, index) => ...)`.
The `Math.random()` draws are abstracted into the oracles `passedOf`
(pass/fail of each index) and `timeOf` (per-case execution time). -/
def handleRunTestsResults (testCases : List TestCase)
    (passedOf : Nat → Bool) (timeOf : Nat → ℚ) : List TestCaseResult :=
  testCases.mapIdx fun index testCase =>
    let passed := passedOf index
    { testCaseId := testCase.id
      passed := passed
      actualOutput :=
        if passed then testCase.expectedOutput
        else "Incorrect output for test " ++ toString (index + 1)
      expectedOutput := testCase.expectedOutput
      executionTime := timeOf index
      error := none }

/-- The full `ExecutionResult` built by `handleRunTests` in
`CodingInterface.tsx` (total time and memory are further `Math.random()`
draws, abstracted as parameters). -/
def handleRunTestsResult (testCases : List TestCase)
    (passedOf : Nat → Bool) (timeOf : Nat → ℚ)
    (totalTime totalMemory : ℚ) : ExecutionResult :=
  { success := true
    output := "All tests completed"
    error := none
    executionTime := totalTime
    memoryUsage := totalMemory
    testResults := some (handleRunTestsResults testCases passedOf timeOf) }

/-- Modelled from the spec: the error taxonomy of §7 of the design
document.  The backend execution service implementing it is not among
the repository sources. -/
inductive FailureKind
  | ValidationError
  | SecurityViolation
  | CompileError
  | RuntimeError
  | Timeout
  | MemoryExceeded
  | InternalError
deriving Repr, DecidableEq

/-- Modelled from the spec: an `ExecutionRequest` (§3) as far as the
compile/run/score pipeline consumes it.  The backend service holding
this type is not among the repository sources. -/
structure ExecutionRequest where
  sourceCode : String
  languageId : String
  testCases : List TestCase
deriving Repr, DecidableEq

/-- Modelled from the spec: the engine-side per-case result (§3
`TestCaseResult` with its per-case `failure_kind`); `notRun` marks the
cases a cancellation left unexecuted (§5).  The backend service holding
this type is not among the repository sources. -/
structure EngineCaseResult where
  testCaseId : String
  passed : Bool
  actualOutput : String
  expectedOutput : String
  failureKind : Option FailureKind
  errorDetail : String
  notRun : Bool
deriving Repr, DecidableEq

/-- Modelled from the spec: the engine-side `ExecutionResult` (§3) with
its request-level `failure_kind` and weighted score.  The backend
service holding this type is not among the repository sources. -/
structure EngineResult where
  success : Bool
  failureKind : Option FailureKind
  caseResults : List EngineCaseResult
  score : ℚ
deriving Repr, DecidableEq

/-- Modelled from the spec: what the sandboxed program did on one test
case — it exited with a status and produced output, or hit the
wall/CPU-time limit, or hit the memory ceiling (§4.4). -/
inductive CaseOutcome
  | completed (exitStatus : Nat) (stdout : String) (stderr : String)
  | timedOut
  | memoryExceeded
deriving Repr, DecidableEq

/-- Modelled from the spec: §4.4 output comparison — "exact-string match
against expected output after normalizing trailing whitespace/newlines". -/
def normalizeOutput (s : String) : String :=
  String.mk ((s.toList.reverse.dropWhile Char.isWhitespace).reverse)

/-- Modelled from the spec: §4.4 classification of one test-case run.
Timeout and memory violations record `Timeout` / `MemoryExceeded`; a
non-zero exit with neither records `RuntimeError` with captured stderr;
a clean exit is compared against the expected output. -/
def runOneCase (outcome : CaseOutcome) (tc : TestCase) : EngineCaseResult :=
  match outcome with
  | CaseOutcome.timedOut =>
      { testCaseId := tc.id, passed := false, actualOutput := "",
        expectedOutput := tc.expectedOutput,
        failureKind := some FailureKind.Timeout, errorDetail := "",
        notRun := false }
  | CaseOutcome.memoryExceeded =>
      { testCaseId := tc.id, passed := false, actualOutput := "",
        expectedOutput := tc.expectedOutput,
        failureKind := some FailureKind.MemoryExceeded, errorDetail := "",
        notRun := false }
  | CaseOutcome.completed exitStatus stdout stderr =>
      if exitStatus ≠ 0 then
        { testCaseId := tc.id, passed := false, actualOutput := stdout,
          expectedOutput := tc.expectedOutput,
          failureKind := some FailureKind.RuntimeError,
          errorDetail := stderr, notRun := false }
      else
        { testCaseId := tc.id,
          passed := normalizeOutput stdout == normalizeOutput tc.expectedOutput,
          actualOutput := stdout, expectedOutput := tc.expectedOutput,
          failureKind := none, errorDetail := stderr, notRun := false }

/-- Modelled from the spec: the placeholder for a case a cancellation
left unexecuted — "remaining cases are marked not-run" (§5). -/
def notRunResult (tc : TestCase) : EngineCaseResult :=
  { testCaseId := tc.id, passed := false, actualOutput := "",
    expectedOutput := tc.expectedOutput, failureKind := none,
    errorDetail := "", notRun := true }

/-- Modelled from the spec: the §3 scoring invariant
`score = Σ(weight_i · passed_i) / Σ(weight_i)` of the Result Aggregator,
which is not among the repository sources. -/
def weightedScore (ws : List (ℚ × Bool)) : ℚ :=
  (ws.map (fun c => if c.2 then c.1 else 0)).sum / (ws.map Prod.fst).sum

/-- Modelled from the spec: the environment-determined behaviour of one
request — scanner verdict (§4.2), provisioning success (§4.3), presence
and outcome of the compile step (§4.4), the outcome of each test-case
run, and an optional external cancellation arriving after `k` completed
cases (§5). -/
structure EngineBehaviour where
  scanAllowed : Bool
  provisionOk : Bool
  hasCompileCmd : Bool
  compileOk : Bool
  caseOutcome : Nat → CaseOutcome
  cancelledAfter : Option Nat

/-- Modelled from the spec: the observable sandbox-lifecycle events of
one request — `acquire`/`release` of the Sandbox Provisioner (§4.3) and
the start of each test-case run (§4.4). -/
inductive Event
  | acquire
  | release
  | runCaseEvent (index : Nat)
deriving Repr, DecidableEq

/-- Modelled from the spec: the sequential test-case loop of the
Execution Orchestrator (§4.4, §5), running the cases in request order
from position `i`; cases at positions `≥ cancelK` are marked not-run. -/
def runCasesFrom (outcome : Nat → CaseOutcome) (cancelK : Nat) (i : Nat)
    (cases : List TestCase) : List EngineCaseResult × List Event :=
  match cases with
  | [] => ([], [])
  | tc :: rest =>
      if i < cancelK then
        let r := runOneCase (outcome i) tc
        let tail := runCasesFrom outcome cancelK (i + 1) rest
        (r :: tail.1, Event.runCaseEvent i :: tail.2)
      else
        ((tc :: rest).map notRunResult, [])

/-- Modelled from the spec: the index after which an external
cancellation (if any) stops the test-case loop (§5); with no
cancellation every case runs. -/
def cancelLimit (beh : EngineBehaviour) (req : ExecutionRequest) : Nat :=
  match beh.cancelledAfter with
  | none => req.testCases.length
  | some k => k

/-- Modelled from the spec: the request state machine of the Execution
Orchestrator together with the Result Aggregator (§4.4, §4.5), which are
not among the repository sources.  Control flow: scan → (reject |
provision) → compile? → run each case → aggregate; a compile failure
halts the machine with no case run; the event trace records sandbox
acquisition, each case run, and release. -/
def execute (beh : EngineBehaviour) (req : ExecutionRequest) :
    EngineResult × List Event :=
  if beh.scanAllowed = false then
    ({ success := false, failureKind := some FailureKind.SecurityViolation,
       caseResults := [], score := 0 }, [])
  else if beh.provisionOk = false then
    ({ success := false, failureKind := some FailureKind.InternalError,
       caseResults := [], score := 0 }, [])
  else if beh.hasCompileCmd ∧ beh.compileOk = false then
    ({ success := false, failureKind := some FailureKind.CompileError,
       caseResults := [], score := 0 }, [Event.acquire, Event.release])
  else
    let run := runCasesFrom beh.caseOutcome (cancelLimit beh req) 0
      req.testCases
    let score := weightedScore
      ((req.testCases.zip run.1).map (fun p => (p.1.weight, p.2.passed)))
    ({ success := run.1.all (fun r => r.passed), failureKind := none,
       caseResults := run.1, score := score },
     Event.acquire :: (run.2 ++ [Event.release]))

/-- Modelled from the spec: §4.5 — the Result Aggregator "redacts
`actual_output` and `expected_output` for hidden cases unless the caller
holds grading privilege".  The aggregator is not among the repository
sources. -/
def redactCase (canSeeHidden : Bool) (tc : TestCase) (r : EngineCaseResult) :
    EngineCaseResult :=
  if tc.isHidden ∧ canSeeHidden = false then
    { r with actualOutput := "", expectedOutput := "" }
  else r

/-- Modelled from the spec: redaction applied across the whole result,
pairing each case result with its test case (§4.5). -/
def redactResult (canSeeHidden : Bool) (cases : List TestCase)
    (res : EngineResult) : EngineResult :=
  { res with caseResults :=
      (cases.zip res.caseResults).map (fun p => redactCase canSeeHidden p.1 p.2) }

/-- Modelled from the spec: the full response pipeline — execute, then
redact according to the caller's grading privilege (§4.5, §6). -/
def respond (canSeeHidden : Bool) (beh : EngineBehaviour)
    (req : ExecutionRequest) : EngineResult :=
  redactResult canSeeHidden req.testCases (execute beh req).1

/-- Structure `ResourceLimits` (§3): the six per-request resource-limit fields. -/
structure ResourceLimits where
  memory_mb : Nat
  cpu_time_seconds : Nat
  wall_time_seconds : Nat
  max_processes : Nat
  max_open_files : Nat
  max_output_bytes : Nat
deriving Repr, DecidableEq

/-- Modelled from the spec: §3 — "Effective limits = min(requested,
platform ceiling) per field".  The backend code computing effective
limits is not among the repository sources. -/
def effectiveLimits (requested ceiling : ResourceLimits) : ResourceLimits :=
  { memory_mb := min requested.memory_mb ceiling.memory_mb
    cpu_time_seconds := min requested.cpu_time_seconds ceiling.cpu_time_seconds
    wall_time_seconds := min requested.wall_time_seconds ceiling.wall_time_seconds
    max_processes := min requested.max_processes ceiling.max_processes
    max_open_files := min requested.max_open_files ceiling.max_open_files
    max_output_bytes := min requested.max_output_bytes ceiling.max_output_bytes }

/-- The `coderunner` hard process ceiling from
`src/backend/docker/execution/Dockerfile.go` (`hard nproc 16`). -/
def coderunnerNprocLimit : Nat := 16

/-- The `coderunner` hard open-file ceiling from
`src/backend/docker/execution/Dockerfile.go` (`hard nofile 32`). -/
def coderunnerNofileLimit : Nat := 32

/-- The `coderunner` hard file-size ceiling from
`src/backend/docker/execution/Dockerfile.go` (`hard fsize 10485760`). -/
def coderunnerFsizeLimit : Nat := 10485760

/-- Scenario B of §8: two test cases with weights 1.0 and 3.0. -/
def scenarioBRequest : ExecutionRequest :=
  { sourceCode := "print(input())", languageId := "python",
    testCases :=
      [ { id := "case-1", input := "a", expectedOutput := "a",
          isHidden := false, weight := 1 },
        { id := "case-2", input := "b", expectedOutput := "b",
          isHidden := false, weight := 3 } ] }

/-- Scenario B of §8: the weight-1.0 case passes and the weight-3.0 case
fails; nothing is cancelled and the (interpreted) profile has no compile
step. -/
def scenarioBBehaviour : EngineBehaviour :=
  { scanAllowed := true, provisionOk := true, hasCompileCmd := false,
    compileOk := true,
    caseOutcome := fun i =>
      if i = 0 then CaseOutcome.completed 0 "a" ""
      else CaseOutcome.completed 0 "wrong" "",
    cancelledAfter := none }

/-- A hidden test case, for exercising the redaction pipeline. -/
def hiddenTestCase : TestCase :=
  { id := "secret-1", input := "x", expectedOutput := "top-secret",
    isHidden := true, weight := 1 }

/-- A request whose single test case is hidden, for exercising the
redaction pipeline. -/
def hiddenRequest : ExecutionRequest :=
  { sourceCode := "print(input())", languageId := "python",
    testCases := [hiddenTestCase] }

/-- What the hidden case of `hiddenRequest` looks like in a
non-privileged response: outputs blanked. -/
def hiddenRedactedCase : EngineCaseResult :=
  { testCaseId := "secret-1", passed := false, actualOutput := "",
    expectedOutput := "", failureKind := none, errorDetail := "",
    notRun := false }

/-- A behaviour whose compile step fails, for exercising the
compile-failure path. -/
def compileFailBehaviour : EngineBehaviour :=
  { scanAllowed := true, provisionOk := true, hasCompileCmd := true,
    compileOk := false,
    caseOutcome := fun _ => CaseOutcome.completed 0 "" "",
    cancelledAfter := none }

/-- A concrete interface state holding code the user has typed (neither
blank nor any language's starter code). -/
def userEditedState : InterfaceState :=
  { code := "print(42)", language := "python" }

/-! ## Helper lemmas about the sequential test-case loop -/

theorem runCasesFrom_length (o : Nat → CaseOutcome) (K : Nat) :
    ∀ (cases : List TestCase) (i : Nat),
      (runCasesFrom o K i cases).1.length = cases.length := by
  intro cases
  induction cases with
  | nil => intro i; rfl
  | cons tc rest ih =>
      intro i
      by_cases h : i < K
      · simp [runCasesFrom, h, ih (i + 1)]
      · simp [runCasesFrom, h]

theorem runCasesFrom_getElem? (o : Nat → CaseOutcome) (K : Nat) :
    ∀ (cases : List TestCase) (i j : Nat), i + cases.length ≤ K →
      ∀ tc : TestCase, cases[j]? = some tc →
      (runCasesFrom o K i cases).1[j]? = some (runOneCase (o (i + j)) tc) := by
  intro cases
  induction cases with
  | nil => intro i j _ tc htc; simp at htc
  | cons hd rest ih =>
      intro i j hK tc htc
      have hi : i < K := by
        simp only [List.length_cons] at hK
        omega
      cases j with
      | zero =>
          simp at htc
          subst htc
          simp [runCasesFrom, hi]
      | succ j' =>
          simp at htc
          have h2 := ih (i + 1) j' (by simp at hK ⊢; omega) tc htc
          have harith : i + 1 + j' = i + (j' + 1) := by omega
          rw [harith] at h2
          simpa [runCasesFrom, hi] using h2

theorem runCasesFrom_event_mem (o : Nat → CaseOutcome) (K : Nat) :
    ∀ (cases : List TestCase) (i j : Nat), i + cases.length ≤ K →
      j < cases.length →
      Event.runCaseEvent (i + j) ∈ (runCasesFrom o K i cases).2 := by
  intro cases
  induction cases with
  | nil => intro i j _ hj; simp at hj
  | cons hd rest ih =>
      intro i j hK hj
      have hi : i < K := by simp [List.length_cons] at hK; omega
      cases j with
      | zero => simp [runCasesFrom, hi]
      | succ j' =>
          have hmem := ih (i + 1) j' (by simp at hK ⊢; omega)
            (by simp at hj; omega)
          have harith : i + 1 + j' = i + (j' + 1) := by omega
          rw [harith] at hmem
          simp [runCasesFrom, hi, List.mem_cons]
          tauto

theorem runCasesFrom_events_shape (o : Nat → CaseOutcome) (K : Nat) :
    ∀ (cases : List TestCase) (i : Nat) (e : Event),
      e ∈ (runCasesFrom o K i cases).2 → ∃ k, e = Event.runCaseEvent k := by
  intro cases
  induction cases with
  | nil => intro i e he; simp [runCasesFrom] at he
  | cons hd rest ih =>
      intro i e he
      by_cases h : i < K
      · simp [runCasesFrom, h] at he
        rcases he with he | he
        · exact ⟨i, he⟩
        · exact ih (i + 1) e he
      · simp [runCasesFrom, h] at he

theorem runCasesFrom_count_acquire (o : Nat → CaseOutcome) (K : Nat)
    (cases : List TestCase) (i : Nat) :
    (runCasesFrom o K i cases).2.count Event.acquire = 0 := by
  rw [List.count_eq_zero]
  intro hmem
  obtain ⟨k, hk⟩ := runCasesFrom_events_shape o K cases i Event.acquire hmem
  cases hk

theorem runCasesFrom_count_release (o : Nat → CaseOutcome) (K : Nat)
    (cases : List TestCase) (i : Nat) :
    (runCasesFrom o K i cases).2.count Event.release = 0 := by
  rw [List.count_eq_zero]
  intro hmem
  obtain ⟨k, hk⟩ := runCasesFrom_events_shape o K cases i Event.release hmem
  cases hk

/-! ## Claim theorems -/

/-- C3: every effective resource-limit field is the minimum of the
requested value and the platform ceiling for that field, so no effective
limit exceeds the ceiling; instantiated with the `coderunner` ceilings of
`Dockerfile.go`, a request asking for more processes, files and output
than the ceiling is clamped to 16 / 32 / 10485760. -/
theorem c3_effective_limits :
    (∀ requested ceiling : ResourceLimits,
      (effectiveLimits requested ceiling).memory_mb =
          min requested.memory_mb ceiling.memory_mb
      ∧ (effectiveLimits requested ceiling).cpu_time_seconds =
          min requested.cpu_time_seconds ceiling.cpu_time_seconds
      ∧ (effectiveLimits requested ceiling).wall_time_seconds =
          min requested.wall_time_seconds ceiling.wall_time_seconds
      ∧ (effectiveLimits requested ceiling).max_processes =
          min requested.max_processes ceiling.max_processes
      ∧ (effectiveLimits requested ceiling).max_open_files =
          min requested.max_open_files ceiling.max_open_files
      ∧ (effectiveLimits requested ceiling).max_output_bytes =
          min requested.max_output_bytes ceiling.max_output_bytes)
    ∧ (∀ requested ceiling : ResourceLimits,
      (effectiveLimits requested ceiling).memory_mb ≤ ceiling.memory_mb
      ∧ (effectiveLimits requested ceiling).cpu_time_seconds ≤
          ceiling.cpu_time_seconds
      ∧ (effectiveLimits requested ceiling).wall_time_seconds ≤
          ceiling.wall_time_seconds
      ∧ (effectiveLimits requested ceiling).max_processes ≤
          ceiling.max_processes
      ∧ (effectiveLimits requested ceiling).max_open_files ≤
          ceiling.max_open_files
      ∧ (effectiveLimits requested ceiling).max_output_bytes ≤
          ceiling.max_output_bytes)
    ∧ effectiveLimits
        { memory_mb := 4096, cpu_time_seconds := 600,
          wall_time_seconds := 600, max_processes := 1000,
          max_open_files := 1000, max_output_bytes := 100000000 }
        { memory_mb := 128, cpu_time_seconds := 5, wall_time_seconds := 10,
          max_processes := coderunnerNprocLimit,
          max_open_files := coderunnerNofileLimit,
          max_output_bytes := coderunnerFsizeLimit } =
      { memory_mb := 128, cpu_time_seconds := 5, wall_time_seconds := 10,
        max_processes := 16, max_open_files := 32,
        max_output_bytes := 10485760 } := by
  refine ⟨fun requested ceiling => ⟨rfl, rfl, rfl, rfl, rfl, rfl⟩,
    fun requested ceiling => ?_, by decide⟩
  exact ⟨Nat.min_le_right _ _, Nat.min_le_right _ _, Nat.min_le_right _ _,
    Nat.min_le_right _ _, Nat.min_le_right _ _, Nat.min_le_right _ _⟩

/-- C7: the `testResults` list returned by `handleRunTests` has the same
length and the same test-case ids, in the same order, as the supplied
`question.testCases` list. -/
theorem c7_result_order :
    ∀ (testCases : List TestCase) (passedOf : Nat → Bool)
      (timeOf : Nat → ℚ) (totalTime totalMemory : ℚ),
      ∃ results : List TestCaseResult,
        (handleRunTestsResult testCases passedOf timeOf totalTime
            totalMemory).testResults = some results
        ∧ results.length = testCases.length
        ∧ results.map TestCaseResult.testCaseId =
            testCases.map TestCase.id := by
  intro testCases passedOf timeOf totalTime totalMemory
  refine ⟨handleRunTestsResults testCases passedOf timeOf, rfl, ?_, ?_⟩
  · simp [handleRunTestsResults]
  · simp only [handleRunTestsResults, List.mapIdx_eq_ofFn, List.map_ofFn]
    exact List.ofFn_getElem_eq_map testCases TestCase.id

/-- Witness for C7 at a concrete two-case request. -/
theorem c7_result_order_witness :
    ∃ results : List TestCaseResult,
      (handleRunTestsResult scenarioBRequest.testCases (fun _ => true)
          (fun _ => 50) 300 786432).testResults = some results
      ∧ results.length = scenarioBRequest.testCases.length
      ∧ results.map TestCaseResult.testCaseId =
          scenarioBRequest.testCases.map TestCase.id :=
  c7_result_order scenarioBRequest.testCases (fun _ => true) (fun _ => 50)
    300 786432

/-- C8 counterexample: resolving the unregistered language id `"cobol"`
does not produce only a typed not-found outcome — `getLanguageConfig`
does return the typed absence `none`, but `getDefaultCodeForLanguage`
falls back to the empty string and `getMonacoLanguage` falls back to the
silent default `"plaintext"`. -/
theorem c8_counterexample :
    getLanguageConfig "cobol" = none
    ∧ getDefaultCodeForLanguage "cobol" = ""
    ∧ getMonacoLanguage "cobol" = "plaintext" := by
  refine ⟨?_, ?_, ?_⟩ <;> rfl

/-- C8 amended: `getLanguageConfig` resolves every registered id to its
configuration and yields the typed absence `none` (never a default
configuration) exactly on unregistered ids; however, the derived lookups
return fallback values instead of an error: `getDefaultCodeForLanguage`
returns `""` and `getMonacoLanguage` returns `"plaintext"` on ids their
tables do not contain. -/
theorem c8_resolve_amended :
    (∀ languageId : String,
        getLanguageConfig languageId = none ↔
          ∀ cfg ∈ SUPPORTED_LANGUAGES, cfg.id ≠ languageId)
    ∧ (∀ (languageId : String) (cfg : LanguageConfig),
        getLanguageConfig languageId = some cfg →
          cfg ∈ SUPPORTED_LANGUAGES ∧ cfg.id = languageId)
    ∧ (∀ languageId : String, getLanguageConfig languageId = none →
        getDefaultCodeForLanguage languageId = "")
    ∧ (∀ languageId : String,
        (∀ p ∈ monacoLanguageMap, p.1 ≠ languageId) →
        getMonacoLanguage languageId = "plaintext") := by
  refine ⟨?_, ?_, ?_, ?_⟩
  · intro languageId
    simp [getLanguageConfig, List.find?_eq_none]
  · intro languageId cfg hfind
    have hmem := List.mem_of_find?_eq_some hfind
    have hpred := List.find?_some hfind
    simp at hpred
    exact ⟨hmem, hpred⟩
  · intro languageId hnone
    simp [getDefaultCodeForLanguage, hnone]
  · intro languageId hnot
    have hnone : monacoLanguageMap.find? (fun p => p.1 == languageId) = none := by
      rw [List.find?_eq_none]
      intro p hp
      simp [hnot p hp]
    simp [getMonacoLanguage, hnone]

/-- Witness for C8's amended theorem at the unregistered id `"fortran"`. -/
theorem c8_resolve_amended_witness :
    getDefaultCodeForLanguage "fortran" = "" ∧
      getMonacoLanguage "fortran" = "plaintext" :=
  ⟨c8_resolve_amended.2.2.1 "fortran" (by rfl),
    c8_resolve_amended.2.2.2 "fortran" (by decide)⟩

/-- C9: when the underlying execution service throws, `executeCode` and
`runTests` still return (and store) an `ExecutionResult` with
`success = false`, empty output, zero time and memory, and the thrown
message as `error`; `isExecuting` is reset to `false` on every path of
both functions. -/
theorem c9_hook_error_path :
    (∀ (service : ServiceOutcome) (s : HookState),
        (executeCode service s).1.isExecuting = false
        ∧ (runTests service s).1.isExecuting = false)
    ∧ (∀ (msg : String) (s : HookState),
        (executeCode (Except.error msg) s).2 =
          { success := false, output := "", error := some msg,
            executionTime := 0, memoryUsage := 0, testResults := none }
        ∧ (executeCode (Except.error msg) s).1.executionResult =
            some (executeCode (Except.error msg) s).2
        ∧ (runTests (Except.error msg) s).2 =
          { success := false, output := "", error := some msg,
            executionTime := 0, memoryUsage := 0, testResults := none }
        ∧ (runTests (Except.error msg) s).1.executionResult =
            some (runTests (Except.error msg) s).2) := by
  constructor
  · intro service s
    cases service <;> exact ⟨rfl, rfl⟩
  · intro msg s
    exact ⟨rfl, rfl, rfl, rfl⟩

/-- Witness for C9 at a concrete thrown error. -/
theorem c9_hook_error_path_witness :
    (executeCode (Except.error "Network Error")
        { isExecuting := true, executionResult := none, error := none }).2 =
      { success := false, output := "", error := some "Network Error",
        executionTime := 0, memoryUsage := 0, testResults := none } :=
  (c9_hook_error_path.2 "Network Error"
    { isExecuting := true, executionResult := none, error := none }).1

/-- C10: on a genuine language switch the editor buffer is replaced by
the new language's starter code exactly when the current buffer is
whitespace-only or equals the old language's starter code, and is left
unchanged otherwise (while the language still switches). -/
theorem c10_language_switch :
    ∀ (newLanguage : String) (s : InterfaceState),
      newLanguage ≠ s.language →
      handleLanguageChange newLanguage s =
        if trimString s.code = "" ∨ s.code = getDefaultCodeForLanguage s.language
        then { code := getDefaultCodeForLanguage newLanguage,
               language := newLanguage }
        else { code := s.code, language := newLanguage } := by
  intro newLanguage s h
  simp only [handleLanguageChange, if_pos h]

/-- Witness for C10: switching from Python to Rust with user-typed code
in the buffer keeps the code and only switches the language. -/
theorem c10_language_switch_witness :
    handleLanguageChange "rust" userEditedState =
      { code := "print(42)", language := "rust" } := by
  rw [c10_language_switch "rust" userEditedState (by decide)]
  decide

/-- The weighted score over a request's cases paired with the results the
engine produced for them, written as the §3 quotient. -/
theorem weightedScore_eq (cases : List TestCase)
    (R : List EngineCaseResult) (hlen : cases.length ≤ R.length) :
    weightedScore ((cases.zip R).map (fun p => (p.1.weight, p.2.passed))) =
      ((cases.zip R).map
          (fun p => if p.2.passed then p.1.weight else 0)).sum /
        (cases.map TestCase.weight).sum := by
  have hnum :
      (((cases.zip R).map (fun p => (p.1.weight, p.2.passed))).map
        (fun c => if c.2 then c.1 else 0)) =
      ((cases.zip R).map (fun p => if p.2.passed then p.1.weight else 0)) := by
    rw [List.map_map]
    rfl
  have hden :
      (((cases.zip R).map (fun p => (p.1.weight, p.2.passed))).map
        Prod.fst) = cases.map TestCase.weight := by
    rw [List.map_map]
    have h1 : ((cases.zip R).map (Prod.fst ∘ fun p => (p.1.weight, p.2.passed)))
        = ((cases.zip R).map Prod.fst).map TestCase.weight := by
      rw [List.map_map]
      rfl
    rw [h1, List.map_fst_zip cases R hlen]
  rw [weightedScore, hnum, hden]

/-- C1: whenever the returned result carries test-case results and the
weights sum to something positive, the score is
`Σ(weight_i · passed_i) / Σ(weight_i)`; in particular Scenario B (weights
1.0 and 3.0, only the weight-1.0 case passing) scores `0.25`. -/
theorem c1_weighted_score :
    (∀ (beh : EngineBehaviour) (req : ExecutionRequest),
        (execute beh req).1.caseResults ≠ [] →
        0 < (req.testCases.map TestCase.weight).sum →
        (execute beh req).1.score =
          ((req.testCases.zip (execute beh req).1.caseResults).map
              (fun p => if p.2.passed then p.1.weight else 0)).sum /
            (req.testCases.map TestCase.weight).sum)
    ∧ (execute scenarioBBehaviour scenarioBRequest).1.score = 1 / 4 := by
  constructor
  · intro beh req hne _hpos
    obtain ⟨sa, po, hc, co, oc, ca⟩ := beh
    cases sa
    · simp [execute] at hne
    · cases po
      · simp [execute] at hne
      · by_cases hcc : hc = true ∧ co = false
        · simp [execute, hcc] at hne
        · have hlen : req.testCases.length ≤
              (runCasesFrom oc
                (cancelLimit ⟨true, true, hc, co, oc, ca⟩ req) 0
                req.testCases).1.length := by
            rw [runCasesFrom_length]
          simpa [execute, hcc] using weightedScore_eq req.testCases _ hlen
  · have h : (execute scenarioBBehaviour scenarioBRequest).1.score =
        weightedScore [(1, true), (3, false)] := rfl
    rw [h, weightedScore]
    norm_num

/-- Witness for C1: the quotient form of the score at Scenario B. -/
theorem c1_weighted_score_witness :
    (execute scenarioBBehaviour scenarioBRequest).1.score =
      ((scenarioBRequest.testCases.zip
          (execute scenarioBBehaviour scenarioBRequest).1.caseResults).map
          (fun p => if p.2.passed then p.1.weight else 0)).sum /
        (scenarioBRequest.testCases.map TestCase.weight).sum :=
  c1_weighted_score.1 scenarioBBehaviour scenarioBRequest (by decide)
    (by norm_num [scenarioBRequest])

/-- C2: in a response for a caller without grading privilege, every
hidden case's actual and expected output is blanked; and the redacted
view of a hidden case is unchanged by any change to that case's
actual/expected output strings (the other fields held fixed). -/
theorem c2_hidden_redaction :
    (∀ (beh : EngineBehaviour) (req : ExecutionRequest) (i : Nat)
        (tc : TestCase) (r : EngineCaseResult),
        req.testCases[i]? = some tc → tc.isHidden = true →
        (respond false beh req).caseResults[i]? = some r →
        r.actualOutput = "" ∧ r.expectedOutput = "")
    ∧ (∀ (tc : TestCase) (r r' : EngineCaseResult),
        tc.isHidden = true →
        r.testCaseId = r'.testCaseId → r.passed = r'.passed →
        r.failureKind = r'.failureKind → r.errorDetail = r'.errorDetail →
        r.notRun = r'.notRun →
        redactCase false tc r = redactCase false tc r') := by
  constructor
  · intro beh req i tc r htc hh hr
    simp only [respond, redactResult, List.getElem?_map] at hr
    rw [Option.map_eq_some'] at hr
    obtain ⟨p, hp, hfr⟩ := hr
    rw [List.getElem?_zip_eq_some] at hp
    obtain ⟨hp1, _hp2⟩ := hp
    rw [htc] at hp1
    injection hp1 with hp1
    rw [← hfr, ← hp1]
    simp [redactCase, hh]
  · intro tc r r' hh h1 h2 h3 h4 h5
    cases r
    cases r'
    simp only at h1 h2 h3 h4 h5
    simp [redactCase, hh, h1, h2, h3, h4, h5]

/-- Witness for C2: the lone hidden case of `hiddenRequest` comes back
with blanked outputs in a non-privileged response. -/
theorem c2_hidden_redaction_witness :
    (respond false scenarioBBehaviour hiddenRequest).caseResults[0]? =
        some hiddenRedactedCase
    ∧ hiddenRedactedCase.actualOutput = ""
    ∧ hiddenRedactedCase.expectedOutput = "" :=
  ⟨by decide,
    c2_hidden_redaction.1 scenarioBBehaviour hiddenRequest 0 hiddenTestCase
      hiddenRedactedCase (by decide) (by decide) (by decide)⟩

/-- C4: on every path the event trace closes every sandbox acquisition
with exactly one release (never a release without an acquisition), at
most one sandbox is acquired per request, and every request that reaches
provisioning acquires and releases exactly one sandbox. -/
theorem c4_sandbox_pairing :
    ∀ (beh : EngineBehaviour) (req : ExecutionRequest),
      (execute beh req).2.count Event.release =
          (execute beh req).2.count Event.acquire
      ∧ (execute beh req).2.count Event.acquire ≤ 1
      ∧ (beh.scanAllowed = true → beh.provisionOk = true →
          (execute beh req).2.count Event.acquire = 1
          ∧ (execute beh req).2.count Event.release = 1) := by
  intro beh req
  obtain ⟨sa, po, hc, co, oc, ca⟩ := beh
  cases sa
  · simp [execute]
  · cases po
    · simp [execute]
    · by_cases hcc : hc = true ∧ co = false
      · refine ⟨?_, ?_, fun _ _ => ⟨?_, ?_⟩⟩ <;> simp [execute, hcc]
      · refine ⟨?_, ?_, fun _ _ => ⟨?_, ?_⟩⟩ <;>
          simp [execute, hcc, List.count_cons, List.count_append,
            runCasesFrom_count_acquire, runCasesFrom_count_release]

/-- Witness for C4 at Scenario B: exactly one acquire and one release. -/
theorem c4_sandbox_pairing_witness :
    (execute scenarioBBehaviour scenarioBRequest).2.count Event.acquire = 1
    ∧ (execute scenarioBBehaviour scenarioBRequest).2.count Event.release
        = 1 :=
  (c4_sandbox_pairing scenarioBBehaviour scenarioBRequest).2.2 rfl rfl

/-- C5: a compile failure halts the request — failure_kind is
CompileError, no test case runs (no per-case result and no run event),
and the score is 0. -/
theorem c5_compile_failure :
    ∀ (beh : EngineBehaviour) (req : ExecutionRequest),
      beh.scanAllowed = true → beh.provisionOk = true →
      beh.hasCompileCmd = true → beh.compileOk = false →
      (execute beh req).1.failureKind = some FailureKind.CompileError
      ∧ (execute beh req).1.caseResults = []
      ∧ (execute beh req).1.score = 0
      ∧ ∀ i : Nat, Event.runCaseEvent i ∉ (execute beh req).2 := by
  intro beh req h1 h2 h3 h4
  refine ⟨?_, ?_, ?_, ?_⟩ <;> simp [execute, h1, h2, h3, h4]

/-- Witness for C5 at a concrete failing compile. -/
theorem c5_compile_failure_witness :
    (execute compileFailBehaviour scenarioBRequest).1.failureKind =
        some FailureKind.CompileError
    ∧ (execute compileFailBehaviour scenarioBRequest).1.caseResults = []
    ∧ (execute compileFailBehaviour scenarioBRequest).1.score = 0 :=
  ⟨(c5_compile_failure compileFailBehaviour scenarioBRequest rfl rfl rfl
      rfl).1,
   (c5_compile_failure compileFailBehaviour scenarioBRequest rfl rfl rfl
      rfl).2.1,
   (c5_compile_failure compileFailBehaviour scenarioBRequest rfl rfl rfl
      rfl).2.2.1⟩

/-- C6: with no cancellation, the engine produces one result per test
case; case `i`'s result is a function of case `i`'s own run outcome
alone (so a RuntimeError/Timeout/MemoryExceeded while running case `i`
is recorded on case `i` only), every case is still executed, and a
timeout / memory violation records the matching per-case failure kind. -/
theorem c6_case_failure_isolation :
    ∀ (beh : EngineBehaviour) (req : ExecutionRequest),
      beh.scanAllowed = true → beh.provisionOk = true →
      (beh.hasCompileCmd = true → beh.compileOk = true) →
      beh.cancelledAfter = none →
      (execute beh req).1.caseResults.length = req.testCases.length
      ∧ (∀ (i : Nat) (tc : TestCase), req.testCases[i]? = some tc →
          (execute beh req).1.caseResults[i]? =
              some (runOneCase (beh.caseOutcome i) tc)
          ∧ Event.runCaseEvent i ∈ (execute beh req).2)
      ∧ (∀ tc : TestCase,
          (runOneCase CaseOutcome.timedOut tc).failureKind =
              some FailureKind.Timeout
          ∧ (runOneCase CaseOutcome.memoryExceeded tc).failureKind =
              some FailureKind.MemoryExceeded) := by
  intro beh req h1 h2 h3 h4
  have hcc : ¬(beh.hasCompileCmd = true ∧ beh.compileOk = false) := by
    rintro ⟨hh, hco⟩
    rw [h3 hh] at hco
    cases hco
  have hK : cancelLimit beh req = req.testCases.length := by
    simp [cancelLimit, h4]
  refine ⟨?_, ?_, fun tc => ⟨rfl, rfl⟩⟩
  · simp [execute, h1, h2, hcc, runCasesFrom_length]
  · intro i tc htc
    have hi : i < req.testCases.length := by
      by_contra hge
      push_neg at hge
      rw [List.getElem?_eq_none hge] at htc
      cases htc
    constructor
    · have hget := runCasesFrom_getElem? beh.caseOutcome
        (cancelLimit beh req) req.testCases 0 i (by rw [hK]; omega) tc htc
      rw [Nat.zero_add] at hget
      simpa [execute, h1, h2, hcc] using hget
    · have hmem := runCasesFrom_event_mem beh.caseOutcome
        (cancelLimit beh req) req.testCases 0 i (by rw [hK]; omega) hi
      rw [Nat.zero_add] at hmem
      simp [execute, h1, h2, hcc, List.mem_cons, List.mem_append]
      tauto

/-- Witness for C6 at Scenario B: two cases in, two results out, and
both run events present. -/
theorem c6_case_failure_isolation_witness :
    (execute scenarioBBehaviour scenarioBRequest).1.caseResults.length =
      scenarioBRequest.testCases.length :=
  (c6_case_failure_isolation scenarioBBehaviour scenarioBRequest rfl rfl
    (by decide) rfl).1

end CodeHub
